import Mathlib

/-!
Shallow embedding of `nifty_agent.py` (class `NiftyInvestmentAgent`).

Numeric market values are modelled as rationals; the Python `None` value is
modelled with `Option`. Python truthiness tests (`if market_data[...]`,
`if self.state[...]`) are embedded explicitly: an `Option` is falsy when it
is `none`, a number is falsy when it is zero, a string is falsy when empty.
File and network I/O are modelled as explicit parameters: the outcome of
`fetch_market_data` is an `Except` value passed to `daily_check`, and the
persisted JSON file is an explicit field of a `World` record.
-/

namespace NiftyAgent

/-- A history entry appended by `execute_investment`:
the dict with keys date, trigger, message. -/
structure HistoryEntry where
  date : String
  trigger : String
  message : String
deriving DecidableEq

/-- The persisted agent state: the dict written to `investment_state.json`.
The counter is a Python int, modelled as an integer. -/
structure AgentState where
  last_investment_date : Option String
  trading_days_since_last_investment : ℤ
  investment_history : List HistoryEntry
deriving DecidableEq

/-- The dict returned by `fetch_market_data`. `vix` is `None` when the VIX
history frame is empty, hence an `Option`. -/
structure MarketData where
  nifty_close : ℚ
  sma_20 : ℚ
  vix : Option ℚ
  timestamp : String
deriving DecidableEq

/-- A trigger descriptor: the dict with keys type and message built by
`check_triggers`. -/
structure Trigger where
  type : String
  message : String
deriving DecidableEq

/-- Python string formatting `.2f` applied to a rational: round to the
nearest hundredth (`round` on the scaled value) and print with exactly two
digits after the decimal point. -/
def fmt2 (q : ℚ) : String :=
  let n : ℤ := round (q * 100)
  let a : ℕ := n.natAbs
  let sign : String := if n < 0 then "-" else ""
  let frac : ℕ := a % 100
  let fracStr : String := if frac < 10 then "0" ++ toString frac else toString frac
  sign ++ toString (a / 100) ++ "." ++ fracStr

/-- Truthiness of an optional string, as in `if self.state[...]`:
`None` and the empty string are falsy. -/
def truthyOptStr : Option String → Bool
  | none => false
  | some s => s ≠ ""

/-- `NiftyInvestmentAgent.check_triggers`: evaluates the three trigger
conditions on the market data and the current state, appending matching
descriptors in source order. The Python test `if market_data[vix] and
market_data[vix] > 22` is embedded with the truthiness of the number made
explicit (`v` nonzero). -/
def check_triggers (state : AgentState) (market_data : MarketData) : List Trigger :=
  let price_dip_percentage : ℚ :=
    (market_data.nifty_close - market_data.sma_20) / market_data.sma_20 * 100
  let t1 : List Trigger :=
    if price_dip_percentage ≤ -(5 / 2 : ℚ) then
      [{ type := "PRICE_DIP",
         message := "Nifty 50 closed " ++ fmt2 |price_dip_percentage| ++
           "% below 20-Day SMA" }]
    else []
  let t2 : List Trigger :=
    match market_data.vix with
    | some v =>
        if v ≠ 0 ∧ v > 22 then
          [{ type := "VOLATILITY_SPIKE",
             message := "India VIX closed at " ++ fmt2 v ++ " (above 22)" }]
        else []
    | none => []
  let t3 : List Trigger :=
    if state.trading_days_since_last_investment ≥ 20 then
      [{ type := "TIME_BASED",
         message := "20 trading days have passed since last investment" }]
    else []
  t1 ++ t2 ++ t3

/-- `NiftyInvestmentAgent.execute_investment`: records the investment in the
state (sets the date, zeroes the counter, appends a history entry) and
composes the alert message that is both passed to `send_sms_alert` and
returned. Returns the updated state and that message; the subsequent
`save_state` call is applied by the caller model (`daily_check`). -/
def execute_investment (today : String) (state : AgentState) (trigger : Trigger) :
    AgentState × String :=
  let state2 : AgentState :=
    { last_investment_date := some today,
      trading_days_since_last_investment := 0,
      investment_history := state.investment_history ++
        [{ date := today, trigger := trigger.type, message := trigger.message }] }
  let alert_message : String :=
    "Investment triggered: " ++ trigger.message ++
      ". Executed 100% of month\x27s allocation to ICICINIFTY."
  (state2, alert_message)

/-- The counter update at the top of `daily_check`: increment only when
`last_investment_date` is truthy. -/
def step_counter (s : AgentState) : AgentState :=
  if truthyOptStr s.last_investment_date then
    { s with trading_days_since_last_investment :=
        s.trading_days_since_last_investment + 1 }
  else s

/-- The result dict returned by `daily_check`. The action path carries the
fired trigger and no `triggers_checked` key; the no-action path carries the
checked kinds and no `trigger` key; `Option` models the absent keys. -/
structure CheckResult where
  action_taken : Bool
  message : String
  market_data : MarketData
  trigger : Option Trigger
  triggers_checked : Option (List String)
deriving DecidableEq

/-- Process state around a `daily_check` call: the in-memory `self.state`
and the content persisted in `investment_state.json` (`none` when no file
has been written). -/
structure World where
  mem : AgentState
  disk : Option AgentState
deriving DecidableEq

/-- `NiftyInvestmentAgent.daily_check`: update the counter, then consume the
outcome of `fetch_market_data` (an exception from the provider propagates,
reaching neither `check_triggers` nor `save_state`); evaluate triggers; on
at least one trigger run `execute_investment` on the first and persist, else
persist the stepped state unchanged. -/
def daily_check (today : String) (fetch : Except String MarketData) (w : World) :
    Except String CheckResult × World :=
  let s := step_counter w.mem
  match fetch with
  | .error e => (.error e, { mem := s, disk := w.disk })
  | .ok market_data =>
      match check_triggers s market_data with
      | [] =>
          (.ok { action_taken := false,
                 message := "No triggers activated",
                 market_data := market_data,
                 trigger := none,
                 triggers_checked :=
                   some ["PRICE_DIP", "VOLATILITY_SPIKE", "TIME_BASED"] },
           { mem := s, disk := some s })
      | t :: _ =>
          let r := execute_investment today s t
          (.ok { action_taken := true,
                 message := r.2,
                 market_data := market_data,
                 trigger := some t,
                 triggers_checked := none },
           { mem := r.1, disk := some r.1 })

/-- The default state built by `load_state` when the file is absent. -/
def initState : AgentState :=
  { last_investment_date := none,
    trading_days_since_last_investment := 0,
    investment_history := [] }

/-- `NiftyInvestmentAgent.load_state`: the persisted file is modelled as
`none` (absent, `FileNotFoundError` path) or `some` parse outcome
(`json.load` succeeding with a state or raising a decode error, which the
`except FileNotFoundError` handler does not catch). Returns the loaded
in-memory state together with the resulting file content, or propagates the
parse failure. -/
def load_state (disk : Option (Except String AgentState)) :
    Except String (AgentState × Option (Except String AgentState)) :=
  match disk with
  | none => .ok (initState, some (.ok initState))
  | some (.error e) => .error e
  | some (.ok s) => .ok (s, some (.ok s))

/-- Helper: the counter update preserves the history list. -/
theorem step_counter_history (s : AgentState) :
    (step_counter s).investment_history = s.investment_history := by
  unfold step_counter; split_ifs <;> rfl

/-- Helper: the counter update preserves the last investment date. -/
theorem step_counter_date (s : AgentState) :
    (step_counter s).last_investment_date = s.last_investment_date := by
  unfold step_counter; split_ifs <;> rfl

/-- Helper: the counter update never decreases the counter. -/
theorem step_counter_mono (s : AgentState) :
    s.trading_days_since_last_investment ≤
      (step_counter s).trading_days_since_last_investment := by
  unfold step_counter; split_ifs <;> simp

section

attribute [local semireducible] Rat.mul Rat.inv Rat.add Rat.sub

/-- Helper: the formatter renders the scenario-A dip magnitude as 2.86. -/
theorem fmt2_scenario_a : fmt2 |-(20 / 7 : ℚ)| = "2.86" := by decide

/-- C1: for every snapshot with positive `sma_20`, `check_triggers` produces a
PRICE_DIP trigger iff `(index_close - sma_20) / sma_20 * 100 ≤ -2.5`; every
PRICE_DIP trigger carries a message built from the absolute dip rendered to
two decimal places; and with `index_close = 17000`, `sma_20 = 17500` the
message is "Nifty 50 closed 2.86% below 20-Day SMA". -/
theorem price_dip_trigger_correct (state : AgentState) (md : MarketData)
    (hpos : 0 < md.sma_20) :
    ((∃ t ∈ check_triggers state md, t.type = "PRICE_DIP") ↔
      (md.nifty_close - md.sma_20) / md.sma_20 * 100 ≤ -(5 / 2 : ℚ)) ∧
    (∀ t ∈ check_triggers state md, t.type = "PRICE_DIP" →
      t.message = "Nifty 50 closed " ++
        fmt2 |(md.nifty_close - md.sma_20) / md.sma_20 * 100| ++ "% below 20-Day SMA") ∧
    (md.nifty_close = 17000 → md.sma_20 = 17500 →
      ∃ t ∈ check_triggers state md,
        t.type = "PRICE_DIP" ∧ t.message = "Nifty 50 closed 2.86% below 20-Day SMA") := by
  clear hpos
  refine ⟨?_, ?_, ?_⟩
  · rcases hv : md.vix with _ | v <;>
      simp only [check_triggers, hv] <;>
      split_ifs <;> simp_all
  · rcases hv : md.vix with _ | v <;>
      simp only [check_triggers, hv] <;>
      split_ifs <;> simp_all
  · intro h1 h2
    have hdip : (md.nifty_close - md.sma_20) / md.sma_20 * 100 = -(20 / 7 : ℚ) := by
      rw [h1, h2]; norm_num
    have hcond : (-(20 / 7 : ℚ)) ≤ -(5 / 2) := by norm_num
    simp only [check_triggers, hdip]
    rw [if_pos hcond]
    exact ⟨_, List.mem_append_left _ (List.mem_append_left _ (List.mem_singleton_self _)),
      rfl, by rw [fmt2_scenario_a]; rfl⟩

/-- C1 witness: scenario A evaluated on concrete inputs through the theorem. -/
theorem price_dip_trigger_correct_witness :
    ∃ t ∈ check_triggers
        { last_investment_date := none, trading_days_since_last_investment := 0,
          investment_history := [] }
        { nifty_close := 17000, sma_20 := 17500, vix := none, timestamp := "" },
      t.type = "PRICE_DIP" ∧ t.message = "Nifty 50 closed 2.86% below 20-Day SMA" :=
  (price_dip_trigger_correct _ _ (by decide)).2.2 rfl rfl

/-- C2: for every snapshot, `check_triggers` produces a VOLATILITY_SPIKE
trigger iff the volatility close is present and strictly greater than 22;
when it is absent the evaluator simply produces no such trigger. The embedded
Python truthiness test (the value must also be nonzero) is subsumed by the
threshold, since any value above 22 is nonzero. -/
theorem volatility_trigger_iff (state : AgentState) (md : MarketData) :
    (∃ t ∈ check_triggers state md, t.type = "VOLATILITY_SPIKE") ↔
      ∃ v, md.vix = some v ∧ 22 < v := by
  rcases hv : md.vix with _ | v
  · simp only [check_triggers, hv]
    split_ifs <;> simp_all
  · have hv0 : (v ≠ 0 ∧ v > 22) ↔ 22 < v :=
      ⟨And.right, fun h => ⟨ne_of_gt (lt_trans (by norm_num) h), h⟩⟩
    simp only [check_triggers, hv, hv0]
    split_ifs <;> simp_all

/-- C3: for every state, `check_triggers` produces a TIME_BASED trigger iff
the trading-day counter is at least 20. -/
theorem time_based_trigger_iff (state : AgentState) (md : MarketData) :
    (∃ t ∈ check_triggers state md, t.type = "TIME_BASED") ↔
      state.trading_days_since_last_investment ≥ 20 := by
  rcases hv : md.vix with _ | v <;>
    simp only [check_triggers, hv] <;>
    split_ifs <;> simp_all

/-- C4 counterexample: a snapshot whose `sma_20` is not positive (here -100,
with close 100) does produce a PRICE_DIP trigger, refuting the claim that a
non-positive average always yields no price-dip trigger. -/
theorem price_dip_nonpositive_sma_refuted :
    ¬((0 : ℚ) < -100) ∧
    (check_triggers
        { last_investment_date := none, trading_days_since_last_investment := 0,
          investment_history := [] }
        { nifty_close := 100, sma_20 := -100, vix := none,
          timestamp := "" }).map Trigger.type = ["PRICE_DIP"] :=
  ⟨by decide, by decide⟩

/-- C4 amended: the evaluator applies the dip formula regardless of the sign
of `sma_20`; for a finite negative `sma_20` it is total (never raises) and
produces a PRICE_DIP trigger exactly when the computed dip is at most -2.5,
so a negative average can fire the trigger. -/
theorem price_dip_negative_sma (state : AgentState) (md : MarketData)
    (hneg : md.sma_20 < 0) :
    (∃ t ∈ check_triggers state md, t.type = "PRICE_DIP") ↔
      (md.nifty_close - md.sma_20) / md.sma_20 * 100 ≤ -(5 / 2 : ℚ) := by
  clear hneg
  rcases hv : md.vix with _ | v <;>
    simp only [check_triggers, hv] <;>
    split_ifs <;> simp_all

/-- C4 witness: the amended statement applied at close 100, sma -100. -/
theorem price_dip_negative_sma_witness :
    ((-100 : ℚ) < 0) ∧
    ∃ t ∈ check_triggers
        { last_investment_date := none, trading_days_since_last_investment := 0,
          investment_history := [] }
        { nifty_close := 100, sma_20 := -100, vix := none, timestamp := "" },
      t.type = "PRICE_DIP" :=
  ⟨by decide, (price_dip_negative_sma _ _ (by decide)).mpr (by decide)⟩

/-- C5: `check_triggers` evaluates the three conditions independently and
returns all matching triggers in the fixed order PRICE_DIP, VOLATILITY_SPIKE,
TIME_BASED (first conjunct, stated through the list of produced trigger
kinds); when at least one trigger fires, `daily_check` records only the first
one: the history gains exactly that one entry and the counter resets to 0
(second conjunct). -/
theorem trigger_priority_single_record (state : AgentState) (md : MarketData)
    (today : String) (disk : Option AgentState) :
    ((check_triggers state md).map Trigger.type =
      (if (md.nifty_close - md.sma_20) / md.sma_20 * 100 ≤ -(5 / 2 : ℚ) then
        ["PRICE_DIP"] else []) ++
      (match md.vix with
        | some v => if 22 < v then ["VOLATILITY_SPIKE"] else []
        | none => []) ++
      (if state.trading_days_since_last_investment ≥ 20 then ["TIME_BASED"] else [])) ∧
    (∀ t ts, check_triggers (step_counter state) md = t :: ts →
      (daily_check today (.ok md) ⟨state, disk⟩).2.mem.investment_history =
        state.investment_history ++ [⟨today, t.type, t.message⟩] ∧
      (daily_check today (.ok md) ⟨state, disk⟩).2.mem.trading_days_since_last_investment
        = 0) := by
  constructor
  · rcases hv : md.vix with _ | v
    · simp only [check_triggers, hv]
      split_ifs <;> rfl
    · have hv0 : (v ≠ 0 ∧ v > 22) ↔ 22 < v :=
        ⟨And.right, fun h => ⟨ne_of_gt (lt_trans (by norm_num) h), h⟩⟩
      simp only [check_triggers, hv, hv0]
      split_ifs <;> rfl
  · intro t ts heq
    simp only [daily_check, heq, execute_investment]
    exact ⟨by rw [step_counter_history], trivial⟩

/-- C5 witness: scenario E, where all three triggers fire; only PRICE_DIP is
recorded, the history gains one entry and the counter resets to 0. -/
theorem trigger_priority_single_record_witness :
    (daily_check "d"
        (.ok { nifty_close := 17000, sma_20 := 17500, vix := some (117 / 5),
               timestamp := "" })
        ⟨{ last_investment_date := some "2024-01-01",
           trading_days_since_last_investment := 19, investment_history := [] },
         none⟩).2.mem.investment_history =
      ([] : List HistoryEntry) ++
        [{ date := "d", trigger := "PRICE_DIP",
           message := "Nifty 50 closed 2.86% below 20-Day SMA" }] ∧
    (daily_check "d"
        (.ok { nifty_close := 17000, sma_20 := 17500, vix := some (117 / 5),
               timestamp := "" })
        ⟨{ last_investment_date := some "2024-01-01",
           trading_days_since_last_investment := 19, investment_history := [] },
         none⟩).2.mem.trading_days_since_last_investment = 0 :=
  (trigger_priority_single_record
      { last_investment_date := some "2024-01-01",
        trading_days_since_last_investment := 19, investment_history := [] }
      { nifty_close := 17000, sma_20 := 17500, vix := some (117 / 5), timestamp := "" }
      "d" none).2
    { type := "PRICE_DIP", message := "Nifty 50 closed 2.86% below 20-Day SMA" }
    [{ type := "VOLATILITY_SPIKE", message := "India VIX closed at 23.40 (above 22)" },
     { type := "TIME_BASED", message := "20 trading days have passed since last investment" }]
    (by decide)

/-- C6: over any `daily_check` run, either the history is unchanged and the
counter does not decrease, or exactly one entry is appended and the counter
is 0; and `execute_investment` always zeroes the counter and appends exactly
one entry built from the trigger, regardless of the prior counter value. -/
theorem counter_reset_invariant (today : String) (fetch : Except String MarketData)
    (w : World) :
    (((daily_check today fetch w).2.mem.investment_history = w.mem.investment_history ∧
      w.mem.trading_days_since_last_investment ≤
        (daily_check today fetch w).2.mem.trading_days_since_last_investment) ∨
     (∃ e, (daily_check today fetch w).2.mem.investment_history =
        w.mem.investment_history ++ [e] ∧
      (daily_check today fetch w).2.mem.trading_days_since_last_investment = 0)) ∧
    (∀ s trig, (execute_investment today s trig).1.trading_days_since_last_investment = 0 ∧
      (execute_investment today s trig).1.investment_history =
        s.investment_history ++
          [{ date := today, trigger := trig.type, message := trig.message }]) := by
  constructor
  · rcases fetch with e | md
    · exact Or.inl ⟨by simp only [daily_check, step_counter_history],
        by simp only [daily_check]; exact step_counter_mono w.mem⟩
    · rcases htr : check_triggers (step_counter w.mem) md with _ | ⟨t, ts⟩
      · exact Or.inl ⟨by simp only [daily_check, htr, step_counter_history],
          by simp only [daily_check, htr]; exact step_counter_mono w.mem⟩
      · refine Or.inr ⟨⟨today, t.type, t.message⟩, ?_, ?_⟩
        · simp only [daily_check, htr, execute_investment]
          rw [step_counter_history]
        · simp only [daily_check, htr, execute_investment]
  · intro s trig
    exact ⟨rfl, rfl⟩

/-- C7 counterexample: the alert message composed by `execute_investment`
is not the string claimed by the spec; the code appends " to ICICINIFTY"
before the final period. -/
theorem alert_message_refuted :
    (execute_investment "2024-01-01"
        { last_investment_date := none, trading_days_since_last_investment := 0,
          investment_history := [] }
        { type := "PRICE_DIP", message := "m" }).2 ≠
      "Investment triggered: m. Executed 100% of month\x27s allocation." := by
  decide

/-- C7 amended: for every trigger, `execute_investment` composes (and hands
to the notifier and returns) the message "Investment triggered:
<trigger.message>. Executed 100% of month\x27s allocation to ICICINIFTY.",
and on the action path `daily_check` reports exactly that message for the
first fired trigger. -/
theorem alert_message_actual (today : String) (s : AgentState) (trig : Trigger)
    (md : MarketData) (w : World) (t : Trigger) (ts : List Trigger)
    (heq : check_triggers (step_counter w.mem) md = t :: ts) :
    (execute_investment today s trig).2 =
      "Investment triggered: " ++ trig.message ++
        ". Executed 100% of month\x27s allocation to ICICINIFTY." ∧
    ∃ r, (daily_check today (.ok md) w).1 = .ok r ∧
      r.action_taken = true ∧
      r.message = "Investment triggered: " ++ t.message ++
        ". Executed 100% of month\x27s allocation to ICICINIFTY." ∧
      r.message = (execute_investment today (step_counter w.mem) t).2 := by
  refine ⟨rfl,
    ⟨{ action_taken := true, message := (execute_investment today (step_counter w.mem) t).2,
       market_data := md, trigger := some t, triggers_checked := none },
     ?_, rfl, rfl, rfl⟩⟩
  simp only [daily_check, heq]

/-- C7 witness: the amended statement evaluated on a concrete firing run. -/
theorem alert_message_actual_witness :
    (execute_investment "d"
        { last_investment_date := none, trading_days_since_last_investment := 0,
          investment_history := [] }
        { type := "PRICE_DIP", message := "m" }).2 =
      "Investment triggered: " ++ "m" ++
        ". Executed 100% of month\x27s allocation to ICICINIFTY." ∧
    ∃ r, (daily_check "d"
        (.ok { nifty_close := 17000, sma_20 := 17500, vix := none, timestamp := "" })
        ⟨{ last_investment_date := none, trading_days_since_last_investment := 0,
           investment_history := [] }, none⟩).1 = .ok r ∧
      r.action_taken = true ∧
      r.message = "Investment triggered: " ++ "Nifty 50 closed 2.86% below 20-Day SMA" ++
        ". Executed 100% of month\x27s allocation to ICICINIFTY." ∧
      r.message = (execute_investment "d"
        (step_counter { last_investment_date := none,
                        trading_days_since_last_investment := 0,
                        investment_history := [] })
        { type := "PRICE_DIP",
          message := "Nifty 50 closed 2.86% below 20-Day SMA" }).2 :=
  alert_message_actual "d"
    { last_investment_date := none, trading_days_since_last_investment := 0,
      investment_history := [] }
    { type := "PRICE_DIP", message := "m" }
    { nifty_close := 17000, sma_20 := 17500, vix := none, timestamp := "" }
    ⟨{ last_investment_date := none, trading_days_since_last_investment := 0,
       investment_history := [] }, none⟩
    { type := "PRICE_DIP", message := "Nifty 50 closed 2.86% below 20-Day SMA" }
    [] (by decide)

/-- C8 counterexample: a no-trigger run on a state with no prior investment
(`last_investment_date = none`) leaves the counter at 0, refuting the claim
that every no-trigger invocation increments the counter by exactly 1. -/
theorem no_trigger_increment_refuted :
    check_triggers
      (step_counter { last_investment_date := none,
                      trading_days_since_last_investment := 0,
                      investment_history := [] })
      { nifty_close := 17500, sma_20 := 17500, vix := none, timestamp := "" } = [] ∧
    (daily_check "d"
        (.ok { nifty_close := 17500, sma_20 := 17500, vix := none, timestamp := "" })
        ⟨{ last_investment_date := none, trading_days_since_last_investment := 0,
           investment_history := [] },
         none⟩).2.mem.trading_days_since_last_investment ≠ (0 : ℤ) + 1 :=
  ⟨by decide, by decide⟩

/-- C8 amended: on a no-trigger run, the counter is incremented by exactly 1
when a prior investment date is set and left unchanged otherwise; nothing is
appended to the history, the last investment date is unchanged, the stepped
state is persisted, and the result reports no action with the fixed message
and the ordered list of checked trigger kinds. -/
theorem no_trigger_frame (today : String) (md : MarketData) (w : World)
    (h : check_triggers (step_counter w.mem) md = []) :
    (daily_check today (.ok md) w).2.mem.trading_days_since_last_investment =
      (if truthyOptStr w.mem.last_investment_date then
        w.mem.trading_days_since_last_investment + 1
       else w.mem.trading_days_since_last_investment) ∧
    (daily_check today (.ok md) w).2.mem.investment_history = w.mem.investment_history ∧
    (daily_check today (.ok md) w).2.mem.last_investment_date =
      w.mem.last_investment_date ∧
    (daily_check today (.ok md) w).2.disk = some (daily_check today (.ok md) w).2.mem ∧
    (daily_check today (.ok md) w).1 =
      .ok { action_taken := false, message := "No triggers activated", market_data := md,
            trigger := none,
            triggers_checked := some ["PRICE_DIP", "VOLATILITY_SPIKE", "TIME_BASED"] } := by
  have hmem : (daily_check today (.ok md) w).2.mem = step_counter w.mem := by
    simp only [daily_check, h]
  have hdisk : (daily_check today (.ok md) w).2.disk = some (step_counter w.mem) := by
    simp only [daily_check, h]
  have hres : (daily_check today (.ok md) w).1 =
      .ok { action_taken := false, message := "No triggers activated", market_data := md,
            trigger := none,
            triggers_checked := some ["PRICE_DIP", "VOLATILITY_SPIKE", "TIME_BASED"] } := by
    simp only [daily_check, h]
  refine ⟨?_, ?_, ?_, ?_, hres⟩
  · rw [hmem]; unfold step_counter; split_ifs <;> rfl
  · rw [hmem, step_counter_history]
  · rw [hmem, step_counter_date]
  · rw [hdisk, hmem]

/-- C8 witness: the amended statement on a concrete no-trigger run with a
prior investment date set, where the counter goes from 5 to 6. -/
theorem no_trigger_frame_witness :
    (daily_check "d"
        (.ok { nifty_close := 17500, sma_20 := 17500, vix := none, timestamp := "" })
        ⟨{ last_investment_date := some "2024-01-01",
           trading_days_since_last_investment := 5, investment_history := [] },
         none⟩).2.mem.trading_days_since_last_investment =
      (if truthyOptStr (some "2024-01-01") then (5 : ℤ) + 1 else (5 : ℤ)) ∧
    (daily_check "d"
        (.ok { nifty_close := 17500, sma_20 := 17500, vix := none, timestamp := "" })
        ⟨{ last_investment_date := some "2024-01-01",
           trading_days_since_last_investment := 5, investment_history := [] },
         none⟩).2.mem.investment_history = [] ∧
    (daily_check "d"
        (.ok { nifty_close := 17500, sma_20 := 17500, vix := none, timestamp := "" })
        ⟨{ last_investment_date := some "2024-01-01",
           trading_days_since_last_investment := 5, investment_history := [] },
         none⟩).2.mem.last_investment_date = some "2024-01-01" ∧
    (daily_check "d"
        (.ok { nifty_close := 17500, sma_20 := 17500, vix := none, timestamp := "" })
        ⟨{ last_investment_date := some "2024-01-01",
           trading_days_since_last_investment := 5, investment_history := [] },
         none⟩).2.disk =
      some ((daily_check "d"
        (.ok { nifty_close := 17500, sma_20 := 17500, vix := none, timestamp := "" })
        ⟨{ last_investment_date := some "2024-01-01",
           trading_days_since_last_investment := 5, investment_history := [] },
         none⟩).2.mem) ∧
    (daily_check "d"
        (.ok { nifty_close := 17500, sma_20 := 17500, vix := none, timestamp := "" })
        ⟨{ last_investment_date := some "2024-01-01",
           trading_days_since_last_investment := 5, investment_history := [] },
         none⟩).1 =
      .ok { action_taken := false, message := "No triggers activated",
            market_data := { nifty_close := 17500, sma_20 := 17500, vix := none,
                             timestamp := "" },
            trigger := none,
            triggers_checked := some ["PRICE_DIP", "VOLATILITY_SPIKE", "TIME_BASED"] } :=
  no_trigger_frame "d"
    { nifty_close := 17500, sma_20 := 17500, vix := none, timestamp := "" }
    ⟨{ last_investment_date := some "2024-01-01",
       trading_days_since_last_investment := 5, investment_history := [] }, none⟩
    (by decide)

/-- C9: when the market-data fetch fails, `daily_check` propagates the
provider failure (the model of `DataUnavailableError`) to its caller, and the
persisted record is unchanged: the in-memory counter increment performed
before the fetch is never saved on this path. -/
theorem fetch_failure_propagates (today e : String) (w : World) :
    (daily_check today (.error e) w).1 = .error e ∧
    (daily_check today (.error e) w).2.disk = w.disk :=
  ⟨rfl, rfl⟩

/-- C10: `load_state` on an absent record constructs the default state (no
last investment date, counter 0, empty history) and immediately persists it;
on a malformed record it propagates the parse failure (the model of
`StorageError`) and never resets the stored record to defaults. -/
theorem load_state_behavior (e : String) :
    load_state none = .ok (initState, some (.ok initState)) ∧
    initState.last_investment_date = none ∧
    initState.trading_days_since_last_investment = 0 ∧
    initState.investment_history = [] ∧
    load_state (some (.error e)) = .error e :=
  ⟨rfl, rfl, rfl, rfl, rfl⟩

end

end NiftyAgent
